import Mathlib

/-!
Shallow embedding of the FAQ-assistant chat component.

The repository has two variants of the `Index` page component:
* `src/unnamed/part_000` — remote mode: `handleSubmit` guards on
  `!input.trim() || isLoading`, appends the user message, clears the input,
  sets `isLoading`, issues one POST to the answer service, and on resolution
  appends exactly one assistant message (the answer on success, a fixed
  apology plus one destructive toast on failure), finally clearing `isLoading`.
* `src/src/pages/Index.tsx` — simulated mode: `handleSubmit` guards only on
  `!input.trim()`, appends the user message, clears the input, and schedules a
  1000 ms timer that appends a fixed canned assistant reply.

State is embedded as records; the React `setX` updater calls become record
updates applied in the source's statement order.  Two ghost logs (`requests`,
`toasts`) record the POST payloads handed to `fetch` and the payloads handed
to `toast`, so that "exactly one request / one notification" is provable.
-/

namespace FaqAssistant

/-- JS `String.prototype.trim`: drop leading and trailing whitespace.
Embedded executably over the character list (the core `String.trim` is
defined by well-founded recursion and does not reduce in the kernel). -/
def jsTrim (s : String) : String :=
  ⟨((s.data.dropWhile Char.isWhitespace).reverse.dropWhile Char.isWhitespace).reverse⟩

/-- The TS interface `Message \x7b text: string; isBot: boolean \x7d`. -/
structure Message where
  text : String
  isBot : Bool
deriving DecidableEq

/-- Payload of the `toast(...)` call in the catch branch of `handleSubmit`. -/
structure Toast where
  variant : String
  title : String
  description : String
deriving DecidableEq

/-- Body of the POST to the answer service: `JSON.stringify(\x7b question \x7d)`. -/
structure AskRequest where
  question : String
deriving DecidableEq

/-- The seeded greeting, initial element of the `messages` state in both
variants (lines 11 to 16 of each file). -/
def greetingMessage : Message :=
  { text := "Hello! I'm your FAQ assistant. How can I help you today?", isBot := true }

/-- The fallback assistant message appended in the catch branch. -/
def apologyMessage : Message :=
  { text := "I apologize, but I'm having trouble processing your request. Please try again.",
    isBot := true }

/-- The toast emitted in the catch branch. -/
def errorToast : Toast :=
  { variant := "destructive", title := "Error",
    description := "Failed to get response from the assistant. Please try again." }

/-- React state of the remote-mode component (`src/unnamed/part_000`):
`messages`, `input`, `isListening`, `isLoading`, plus the two ghost logs. -/
structure AppState where
  messages : List Message
  input : String
  isListening : Bool
  isLoading : Bool
  requests : List AskRequest
  toasts : List Toast
deriving DecidableEq

/-- Initial remote-mode state: one seeded greeting, empty input, not
listening, not loading, no requests issued, no toasts shown. -/
def initialState : AppState :=
  { messages := [greetingMessage], input := "", isListening := false,
    isLoading := false, requests := [], toasts := [] }

/-- One primitive side effect of the component, in the order the source
executes them.  `appendMessage` is `setMessages(prev => [...prev, m])`,
`writeInput` is `setInput`, `setLoading` is `setIsLoading`, `post` is the
`fetch` POST, `notify` is the `toast` call. -/
inductive Effect where
  | appendMessage (m : Message)
  | writeInput (q : String)
  | setLoading (b : Bool)
  | setListening (b : Bool)
  | post (r : AskRequest)
  | notify (t : Toast)
deriving DecidableEq

/-- Apply one primitive effect to the state. -/
def applyEffect (s : AppState) : Effect → AppState
  | .appendMessage m => { s with messages := s.messages ++ [m] }
  | .writeInput q => { s with input := q }
  | .setLoading b => { s with isLoading := b }
  | .setListening b => { s with isListening := b }
  | .post r => { s with requests := s.requests ++ [r] }
  | .notify t => { s with toasts := s.toasts ++ [t] }

/-- Apply a list of effects left to right. -/
def applyEffects (es : List Effect) (s : AppState) : AppState :=
  es.foldl applyEffect s

/-- The guard on line 88: `if (!input.trim() || isLoading) return;`.
JS `!input.trim()` is true exactly when the trimmed string is empty. -/
def submitBlocked (s : AppState) : Bool :=
  (jsTrim s.input).isEmpty || s.isLoading

/-- Effect trace of `handleSubmit` up to the `await` (lines 90 to 102), in
source order: append the user message carrying the raw untrimmed `input`,
clear the input, set the loading flag, issue the POST whose payload question
is `userMessage.text` (the raw input).  Empty when the guard rejects. -/
def submitStartEffects (s : AppState) : List Effect :=
  if submitBlocked s then []
  else
    [ .appendMessage { text := s.input, isBot := false },
      .writeInput "",
      .setLoading true,
      .post { question := s.input } ]

/-- The synchronous part of `handleSubmit`: run its effect trace. -/
def submitStart (s : AppState) : AppState :=
  applyEffects (submitStartEffects s) s

/-- Outcome of the awaited `fetch`: either a parsed `\x7b answer \x7d` success
payload, or failure (transport error, non-ok status, or JSON error — the
catch branch treats them all alike). -/
inductive FetchOutcome where
  | success (answer : String)
  | failure
deriving DecidableEq

/-- Effect trace of the resolution half of `handleSubmit` (lines 104 to 129):
on success append the assistant message built from `data.answer`; on failure
emit the toast then append the apology; in both cases the finally block
clears the loading flag last. -/
def submitResolveEffects : FetchOutcome → List Effect
  | .success a => [.appendMessage { text := a, isBot := true }, .setLoading false]
  | .failure => [.notify errorToast, .appendMessage apologyMessage, .setLoading false]

/-- Resolution of one in-flight submission. -/
def submitResolve (r : FetchOutcome) (s : AppState) : AppState :=
  applyEffects (submitResolveEffects r) s

/-- The assistant message a resolution appends. -/
def replyMessage : FetchOutcome → Message
  | .success a => { text := a, isBot := true }
  | .failure => apologyMessage

/-- The toasts a resolution emits: one on failure, none on success. -/
def failureToasts : FetchOutcome → List Toast
  | .success _ => []
  | .failure => [errorToast]

/-- Typing into the input field: `onChange` calls `setInput`. -/
def setInput (q : String) (s : AppState) : AppState :=
  { s with input := q }

/-- One full submission round: type the question, submit, and if a request
was issued (guard passed) resolve it with outcome `r`.  When the guard
rejects, no fetch happens and there is nothing to resolve. -/
def submitAndResolve (q : String) (r : FetchOutcome) (s : AppState) : AppState :=
  let s1 := setInput q s
  if submitBlocked s1 then s1 else submitResolve r (submitStart s1)

/-- Run a sequence of full submission rounds. -/
def runSubmissions (subs : List (String × FetchOutcome)) (s : AppState) : AppState :=
  subs.foldl (fun t p => submitAndResolve p.1 p.2 t) s

/-- The pair of messages each round appends: the user message then the reply. -/
def submissionMessages : List (String × FetchOutcome) → List Message
  | [] => []
  | (q, r) :: rest => { text := q, isBot := false } :: replyMessage r :: submissionMessages rest

/-- The requests the rounds issue, one per round. -/
def submissionRequests : List (String × FetchOutcome) → List AskRequest
  | [] => []
  | (q, _) :: rest => { question := q } :: submissionRequests rest

/-- One entry of the `event.results` list: first-alternative transcript and
the `isFinal` flag. -/
structure SpeechResult where
  transcript : String
  isFinal : Bool
deriving DecidableEq

/-- Whether the last result of the event is final (line 48). -/
def lastIsFinal (results : List SpeechResult) : Bool :=
  match results.getLast? with
  | some r => r.isFinal
  | none => false

/-- The `onresult` handler (lines 40 to 52): join every result transcript,
write it to the input; when the last result is final, write it again. -/
def onresult (results : List SpeechResult) (s : AppState) : AppState :=
  let transcript := String.join (results.map SpeechResult.transcript)
  let s1 := { s with input := transcript }
  if lastIsFinal results then { s1 with input := transcript } else s1

/-- The `onerror` handler: stop listening (lines 54 to 57). -/
def onerrorHandler (s : AppState) : AppState :=
  { s with isListening := false }

/-- The `onend` handler: stop listening (lines 59 to 61). -/
def onendHandler (s : AppState) : AppState :=
  { s with isListening := false }

/-- `toggleListening` (lines 71 to 84): no-op when recognition is
unsupported, otherwise flip the listening flag. -/
def toggleListening (supported : Bool) (s : AppState) : AppState :=
  if supported = false then s
  else if s.isListening then { s with isListening := false }
  else { s with isListening := true }

/-- The canned assistant reply of the simulated variant (lines 86 to 89 of
`src/src/pages/Index.tsx`). -/
def simCannedReply : Message :=
  { text := "I understand your question. Let me help you with that.", isBot := true }

/-- React state of the simulated-mode component (`src/src/pages/Index.tsx`):
no loading flag, no fetch, no toasts. -/
structure SimState where
  messages : List Message
  input : String
  isListening : Bool
deriving DecidableEq

/-- Initial simulated-mode state. -/
def simInitialState : SimState :=
  { messages := [greetingMessage], input := "", isListening := false }

/-- Simulated-mode `handleSubmit` (lines 76 to 92): guard on the trimmed
input only; append the raw user message, clear the input, and schedule the
timer.  The returned flag records whether a timer was scheduled. -/
def simSubmit (s : SimState) : SimState × Bool :=
  if (jsTrim s.input).isEmpty then (s, false)
  else
    let userMessage : Message := { text := s.input, isBot := false }
    ({ s with messages := s.messages ++ [userMessage], input := "" }, true)

/-- The 1000 ms timer callback: append the canned assistant reply. -/
def simTimerFire (s : SimState) : SimState :=
  { s with messages := s.messages ++ [simCannedReply] }

/-- Typing into the simulated-mode input field. -/
def simSetInput (q : String) (s : SimState) : SimState :=
  { s with input := q }

/-- One full simulated round: type, submit, and fire the timer when one was
scheduled. -/
def simSubmitAndFire (q : String) (s : SimState) : SimState :=
  let p := simSubmit (simSetInput q s)
  if p.2 then simTimerFire p.1 else p.1

/-- Run a sequence of simulated rounds. -/
def simRunSubmissions (qs : List String) (s : SimState) : SimState :=
  qs.foldl (fun t q => simSubmitAndFire q t) s

/-- The pair of messages each simulated round appends. -/
def simSubmissionMessages : List String → List Message
  | [] => []
  | q :: rest => { text := q, isBot := false } :: simCannedReply :: simSubmissionMessages rest

/-- Simulated-mode `onresult` (lines 38 to 42 of `Index.tsx`): overwrite the
input with the single transcript and stop listening. -/
def simOnresult (transcript : String) (s : SimState) : SimState :=
  { s with input := transcript, isListening := false }

/-- One UI or callback event of the remote-mode component, relating a state
to its successor. -/
inductive Step : AppState → AppState → Prop where
  | type (q s) : Step s (setInput q s)
  | speechResult (rs s) : Step s (onresult rs s)
  | speechError (s) : Step s (onerrorHandler s)
  | speechEnd (s) : Step s (onendHandler s)
  | mic (b s) : Step s (toggleListening b s)
  | submit (s) : Step s (submitStart s)
  | resolve (r s) : Step s (submitResolve r s)

/-- States reachable from the initial remote-mode state by component events. -/
inductive Reachable : AppState → Prop where
  | init : Reachable initialState
  | step {s t} : Reachable s → Step s t → Reachable t

/-! Helper lemmas about the two submission halves. -/

theorem submitStart_of_blocked (s : AppState) (h : submitBlocked s = true) :
    submitStart s = s := by
  simp [submitStart, submitStartEffects, h, applyEffects]

theorem submitStart_of_open (s : AppState) (h : submitBlocked s = false) :
    submitStart s =
      { messages := s.messages ++ [{ text := s.input, isBot := false }],
        input := "", isListening := s.isListening, isLoading := true,
        requests := s.requests ++ [{ question := s.input }], toasts := s.toasts } := by
  simp [submitStart, submitStartEffects, h, applyEffects, applyEffect]

theorem submitResolve_success (a : String) (s : AppState) :
    submitResolve (.success a) s =
      { s with
        messages := s.messages ++ [{ text := a, isBot := true }],
        isLoading := false } := rfl

theorem submitResolve_failure (s : AppState) :
    submitResolve .failure s =
      { s with
        messages := s.messages ++ [apologyMessage],
        isLoading := false,
        toasts := s.toasts ++ [errorToast] } := rfl

theorem submitAndResolve_eq (q : String) (r : FetchOutcome) (s : AppState)
    (hq : (jsTrim q).isEmpty = false) (h : s.isLoading = false) :
    submitAndResolve q r s =
      { messages := s.messages ++ [{ text := q, isBot := false }, replyMessage r],
        input := "", isListening := s.isListening, isLoading := false,
        requests := s.requests ++ [{ question := q }],
        toasts := s.toasts ++ failureToasts r } := by
  have hb : submitBlocked (setInput q s) = false := by
    simp [submitBlocked, setInput, hq, h]
  cases r with
  | success a =>
      simp only [submitAndResolve]
      rw [if_neg (by simp [hb]), submitStart_of_open _ hb, submitResolve_success]
      simp [setInput, replyMessage, failureToasts]
  | failure =>
      simp only [submitAndResolve]
      rw [if_neg (by simp [hb]), submitStart_of_open _ hb, submitResolve_failure]
      simp [setInput, replyMessage, failureToasts]

theorem runSubmissions_cons (p : String × FetchOutcome)
    (rest : List (String × FetchOutcome)) (s : AppState) :
    runSubmissions (p :: rest) s = runSubmissions rest (submitAndResolve p.1 p.2 s) := rfl

theorem runSubmissions_spec (subs : List (String × FetchOutcome)) (s : AppState)
    (hv : ∀ p ∈ subs, (jsTrim p.1).isEmpty = false) (h : s.isLoading = false) :
    (runSubmissions subs s).messages = s.messages ++ submissionMessages subs ∧
    (runSubmissions subs s).isLoading = false := by
  induction subs generalizing s with
  | nil => simpa [runSubmissions, submissionMessages] using h
  | cons p rest ih =>
      obtain ⟨q, r⟩ := p
      have hq : (jsTrim q).isEmpty = false := hv (q, r) (List.mem_cons_self _ _)
      have hrest : ∀ x ∈ rest, (jsTrim x.1).isEmpty = false :=
        fun x hx => hv x (List.mem_cons_of_mem _ hx)
      have hstep := submitAndResolve_eq q r s hq h
      obtain ⟨hm, hl⟩ := ih (submitAndResolve q r s) hrest (by rw [hstep])
      rw [runSubmissions_cons]
      refine ⟨?_, hl⟩
      rw [hm, hstep]
      simp [submissionMessages]

theorem submissionMessages_length (subs : List (String × FetchOutcome)) :
    (submissionMessages subs).length = 2 * subs.length := by
  induction subs with
  | nil => rfl
  | cons p rest ih =>
      obtain ⟨q, r⟩ := p
      simp [submissionMessages, ih]
      omega

theorem simSubmitAndFire_eq (q : String) (s : SimState)
    (hq : (jsTrim q).isEmpty = false) :
    simSubmitAndFire q s =
      { messages := s.messages ++ [{ text := q, isBot := false }, simCannedReply],
        input := "", isListening := s.isListening } := by
  simp [simSubmitAndFire, simSubmit, simSetInput, hq, simTimerFire]

theorem simRunSubmissions_spec (qs : List String) (s : SimState)
    (hv : ∀ q ∈ qs, (jsTrim q).isEmpty = false) :
    (simRunSubmissions qs s).messages = s.messages ++ simSubmissionMessages qs := by
  induction qs generalizing s with
  | nil => simp [simRunSubmissions, simSubmissionMessages]
  | cons q rest ih =>
      have hq : (jsTrim q).isEmpty = false := hv q (List.mem_cons_self _ _)
      have hrest : ∀ x ∈ rest, (jsTrim x).isEmpty = false :=
        fun x hx => hv x (List.mem_cons_of_mem _ hx)
      have hstep := simSubmitAndFire_eq q s hq
      have : simRunSubmissions (q :: rest) s = simRunSubmissions rest (simSubmitAndFire q s) := rfl
      rw [this, ih (simSubmitAndFire q s) hrest, hstep]
      simp [simSubmissionMessages]

theorem simSubmissionMessages_length (qs : List String) :
    (simSubmissionMessages qs).length = 2 * qs.length := by
  induction qs with
  | nil => rfl
  | cons q rest ih =>
      simp [simSubmissionMessages, ih]
      omega

/-! Step-indexed append-only lemmas for the conversation store. -/

theorem onresult_messages (rs : List SpeechResult) (s : AppState) :
    (onresult rs s).messages = s.messages := by
  dsimp [onresult]
  split <;> rfl

theorem toggleListening_messages (b : Bool) (s : AppState) :
    (toggleListening b s).messages = s.messages := by
  cases b <;> rcases hs : s.isListening <;> simp [toggleListening, hs]

theorem Step.messages_extend {s t : AppState} (h : Step s t) :
    ∃ added, t.messages = s.messages ++ added := by
  cases h with
  | type q s => exact ⟨[], by simp [setInput]⟩
  | speechResult rs s => exact ⟨[], by rw [onresult_messages]; simp⟩
  | speechError s => exact ⟨[], by simp [onerrorHandler]⟩
  | speechEnd s => exact ⟨[], by simp [onendHandler]⟩
  | mic b s => exact ⟨[], by rw [toggleListening_messages]; simp⟩
  | submit s =>
      rcases hb : submitBlocked s with _ | _
      · exact ⟨[{ text := s.input, isBot := false }],
          by rw [submitStart_of_open s hb]⟩
      · exact ⟨[], by rw [submitStart_of_blocked s hb]; simp⟩
  | resolve r s =>
      cases r with
      | success a => exact ⟨[{ text := a, isBot := true }], rfl⟩
      | failure => exact ⟨[apologyMessage], rfl⟩

theorem reachable_greeting {s : AppState} (h : Reachable s) :
    ∃ rest, s.messages = greetingMessage :: rest := by
  induction h with
  | init => exact ⟨[], rfl⟩
  | step hr hstep ih =>
      obtain ⟨rest, hrest⟩ := ih
      obtain ⟨added, hadd⟩ := hstep.messages_extend
      exact ⟨rest ++ added, by rw [hadd, hrest]; simp⟩

/-! The claims. -/

/-- Claim C1: for every sequence of valid submissions (trimmed-non-empty
question, pipeline idle), each submission grows the conversation by exactly
two messages — the user message followed by one assistant reply — and all
previously appended messages are preserved in their original order; the
simulated variant behaves the same with its canned reply. -/
theorem C1_conversation_grows_two_per_submission
    (subs : List (String × FetchOutcome)) (s : AppState)
    (qs : List String) (t : SimState)
    (hsubs : ∀ p ∈ subs, (jsTrim p.1).isEmpty = false)
    (hidle : s.isLoading = false)
    (hqs : ∀ q ∈ qs, (jsTrim q).isEmpty = false) :
    (runSubmissions subs s).messages = s.messages ++ submissionMessages subs ∧
    (runSubmissions subs s).messages.length = s.messages.length + 2 * subs.length ∧
    (∀ q r, submissionMessages [(q, r)] =
      [{ text := q, isBot := false }, replyMessage r]) ∧
    (∀ r, (replyMessage r).isBot = true) ∧
    (simRunSubmissions qs t).messages = t.messages ++ simSubmissionMessages qs ∧
    (simRunSubmissions qs t).messages.length = t.messages.length + 2 * qs.length := by
  obtain ⟨hm, _⟩ := runSubmissions_spec subs s hsubs hidle
  have hsim := simRunSubmissions_spec qs t hqs
  refine ⟨hm, ?_, ?_, ?_, hsim, ?_⟩
  · rw [hm]; simp [submissionMessages_length]
  · intro q r; rfl
  · intro r; cases r <;> rfl
  · rw [hsim]; simp [simSubmissionMessages_length]

theorem C1_growth_witness :
    (∀ p ∈ ([("hi", FetchOutcome.success "yo"), ("x", FetchOutcome.failure)] :
        List (String × FetchOutcome)), (jsTrim p.1).isEmpty = false) ∧
    initialState.isLoading = false ∧
    (∀ q ∈ (["ok"] : List String), (jsTrim q).isEmpty = false) ∧
    ((runSubmissions [("hi", FetchOutcome.success "yo"), ("x", FetchOutcome.failure)]
        initialState).messages =
      initialState.messages ++
        submissionMessages [("hi", FetchOutcome.success "yo"), ("x", FetchOutcome.failure)] ∧
    (runSubmissions [("hi", FetchOutcome.success "yo"), ("x", FetchOutcome.failure)]
        initialState).messages.length =
      initialState.messages.length +
        2 * ([("hi", FetchOutcome.success "yo"), ("x", FetchOutcome.failure)] :
          List (String × FetchOutcome)).length ∧
    (∀ q r, submissionMessages [(q, r)] =
      [{ text := q, isBot := false }, replyMessage r]) ∧
    (∀ r, (replyMessage r).isBot = true) ∧
    (simRunSubmissions ["ok"] simInitialState).messages =
      simInitialState.messages ++ simSubmissionMessages ["ok"] ∧
    (simRunSubmissions ["ok"] simInitialState).messages.length =
      simInitialState.messages.length + 2 * (["ok"] : List String).length) :=
  ⟨by decide, rfl, by decide,
    C1_conversation_grows_two_per_submission
      [("hi", FetchOutcome.success "yo"), ("x", FetchOutcome.failure)] initialState
      ["ok"] simInitialState (by decide) rfl (by decide)⟩

/-- Claim C2: submitting while the trimmed input is empty (empty or
whitespace-only) changes nothing: the whole state, and in particular the
conversation length, is untouched, with no user-visible error. -/
theorem C2_blank_submit_is_noop (s : AppState)
    (h : (jsTrim s.input).isEmpty = true) :
    submitStart s = s ∧ (submitStart s).messages.length = s.messages.length := by
  have hb : submitBlocked s = true := by simp [submitBlocked, h]
  have hs := submitStart_of_blocked s hb
  exact ⟨hs, by rw [hs]⟩

theorem C2_blank_submit_witness :
    (jsTrim ({ initialState with input := "   " } : AppState).input).isEmpty = true ∧
    (submitStart { initialState with input := "   " } =
        ({ initialState with input := "   " } : AppState) ∧
      (submitStart { initialState with input := "   " }).messages.length =
        ({ initialState with input := "   " } : AppState).messages.length) :=
  ⟨by decide, C2_blank_submit_is_noop _ (by decide)⟩

/-- Claim C3, counterexample to the original statement: in the simulated
variant there is no busy gate.  Submitting "a" schedules a timer (its
resolution is outstanding, conversation length 2); submitting "b" before
that timer fires is accepted anyway — the length changes to 3 and a second
timer is now in flight, so neither "never changes the length" nor "at most
one submission in flight" holds there. -/
theorem C3_sim_counterexample :
    (simSubmit (simSetInput "a" simInitialState)).2 = true ∧
    (simSubmit (simSetInput "a" simInitialState)).1.messages.length = 2 ∧
    (simSubmit (simSetInput "b" (simSubmit (simSetInput "a" simInitialState)).1)).2 = true ∧
    (simSubmit (simSetInput "b"
      (simSubmit (simSetInput "a" simInitialState)).1)).1.messages.length = 3 := by
  decide

/-- Claim C3, amended: in the remote variant — the only one with a pipeline
state flag — submitting while a resolution is outstanding (the loading flag
is set) changes nothing: the state, and in particular the conversation
length, is untouched, so at most one remote submission is in flight at a
time.  The simulated variant guards only on the trimmed input, so a
submission during its pending timer is accepted, as the counterexample
above shows. -/
theorem C3_busy_submit_is_noop (s : AppState) (h : s.isLoading = true) :
    submitStart s = s ∧ (submitStart s).messages.length = s.messages.length := by
  have hb : submitBlocked s = true := by simp [submitBlocked, h]
  have hs := submitStart_of_blocked s hb
  exact ⟨hs, by rw [hs]⟩

theorem C3_busy_submit_witness :
    ({ initialState with input := "hi", isLoading := true } : AppState).isLoading = true ∧
    (submitStart { initialState with input := "hi", isLoading := true } =
        ({ initialState with input := "hi", isLoading := true } : AppState) ∧
      (submitStart { initialState with input := "hi", isLoading := true }).messages.length =
        ({ initialState with input := "hi", isLoading := true } : AppState).messages.length) :=
  ⟨rfl, C3_busy_submit_is_noop _ rfl⟩

/-- Claim C4: every resolution — success or failure alike, via the finally
block — leaves the loading flag cleared: the pipeline is never left stuck in
the awaiting state.  (The simulated variant has no loading flag at all, so
its pipeline state is trivially idle.) -/
theorem C4_resolution_restores_idle (r : FetchOutcome) (s : AppState) :
    (submitResolve r s).isLoading = false := by
  cases r <;> rfl

/-- Claim C5: a valid submission performs its effects in source order: first
append the user message (isBot = false) carrying the raw untrimmed input,
then clear the input buffer, then raise the loading flag (and only then issue
the POST). -/
theorem C5_submit_effect_order (s : AppState) (h : submitBlocked s = false) :
    submitStartEffects s =
      [Effect.appendMessage { text := s.input, isBot := false },
        Effect.writeInput "",
        Effect.setLoading true,
        Effect.post { question := s.input }] ∧
    submitStart s = applyEffects (submitStartEffects s) s :=
  ⟨by simp [submitStartEffects, h], rfl⟩

theorem C5_effect_order_witness :
    submitBlocked ({ initialState with input := " hours? " } : AppState) = false ∧
    (submitStartEffects { initialState with input := " hours? " } =
        [Effect.appendMessage { text := " hours? ", isBot := false },
          Effect.writeInput "",
          Effect.setLoading true,
          Effect.post { question := " hours? " }] ∧
      submitStart { initialState with input := " hours? " } =
        applyEffects (submitStartEffects { initialState with input := " hours? " })
          { initialState with input := " hours? " }) :=
  ⟨by decide, C5_submit_effect_order _ (by decide)⟩

/-- Claim C6: a failed remote resolution appends exactly one fallback
apologetic assistant message and emits exactly one error toast, so the
conversation still receives exactly one reply for that submission. -/
theorem C6_failure_one_apology_one_toast (s : AppState) :
    (submitResolve FetchOutcome.failure s).messages = s.messages ++ [apologyMessage] ∧
    (submitResolve FetchOutcome.failure s).toasts = s.toasts ++ [errorToast] ∧
    (submitResolve FetchOutcome.failure s).messages.length = s.messages.length + 1 ∧
    (submitResolve FetchOutcome.failure s).toasts.length = s.toasts.length + 1 ∧
    apologyMessage.isBot = true := by
  refine ⟨rfl, rfl, ?_, ?_, rfl⟩ <;> simp [submitResolve_failure]

/-- Claim C7: a valid submission issues exactly one POST whose payload
question is the submitted text, and a success payload answer becomes,
verbatim, the text of the appended assistant message. -/
theorem C7_single_post_and_answer (q a : String) (s : AppState)
    (hq : (jsTrim q).isEmpty = false) (hidle : s.isLoading = false) :
    (submitAndResolve q (FetchOutcome.success a) s).requests =
      s.requests ++ [{ question := q }] ∧
    (submitAndResolve q (FetchOutcome.success a) s).messages =
      s.messages ++ [{ text := q, isBot := false }, { text := a, isBot := true }] := by
  have h := submitAndResolve_eq q (FetchOutcome.success a) s hq hidle
  rw [h]
  exact ⟨rfl, rfl⟩

theorem C7_single_post_witness :
    (jsTrim "refund policy").isEmpty = false ∧
    initialState.isLoading = false ∧
    ((submitAndResolve "refund policy" (FetchOutcome.success "30 days")
        initialState).requests =
      initialState.requests ++ [{ question := "refund policy" }] ∧
    (submitAndResolve "refund policy" (FetchOutcome.success "30 days")
        initialState).messages =
      initialState.messages ++
        [{ text := "refund policy", isBot := false }, { text := "30 days", isBot := true }]) :=
  ⟨by decide, rfl,
    C7_single_post_and_answer "refund policy" "30 days" initialState (by decide) rfl⟩

/-- Claim C8: every transcript event replaces the input buffer with the full
concatenated transcript of the session so far — overwrite, not append — so a
later event always supersedes an earlier one; the simulated variant likewise
overwrites with its single transcript. -/
theorem C8_transcript_overwrites_input (results rs1 rs2 : List SpeechResult)
    (s : AppState) (t : String) (u : SimState) :
    (onresult results s).input = String.join (results.map SpeechResult.transcript) ∧
    (onresult rs2 (onresult rs1 s)).input =
      String.join (rs2.map SpeechResult.transcript) ∧
    (simOnresult t u).input = t := by
  have key : ∀ (rs : List SpeechResult) (x : AppState),
      (onresult rs x).input = String.join (rs.map SpeechResult.transcript) := by
    intro rs x
    dsimp [onresult]
    split <;> rfl
  exact ⟨key results s, key rs2 (onresult rs1 s), rfl⟩

/-- Claim C9: the conversation starts as exactly the seeded assistant
greeting (isBot = true, in both variants), every reachable state's message
list still begins with that greeting, and every component event at most
appends messages at the end — none removes or edits one. -/
theorem C9_seeded_greeting_invariant (s : AppState) (h : Reachable s) :
    initialState.messages = [greetingMessage] ∧
    greetingMessage.isBot = true ∧
    simInitialState.messages = [greetingMessage] ∧
    (∃ rest, s.messages = greetingMessage :: rest) ∧
    (∀ a b, Step a b → ∃ added, b.messages = a.messages ++ added) :=
  ⟨rfl, rfl, rfl, reachable_greeting h, fun _ _ hs => hs.messages_extend⟩

theorem C9_greeting_witness :
    Reachable initialState ∧
    (initialState.messages = [greetingMessage] ∧
      greetingMessage.isBot = true ∧
      simInitialState.messages = [greetingMessage] ∧
      (∃ rest, initialState.messages = greetingMessage :: rest) ∧
      (∀ a b, Step a b → ∃ added, b.messages = a.messages ++ added)) :=
  ⟨Reachable.init, C9_seeded_greeting_invariant initialState Reachable.init⟩

/-- Claim C10: a rejected submission (blank trimmed input, or an outstanding
resolution) leaves the entire state unchanged — the input buffer keeps its
contents, the loading flag keeps its value, the conversation is untouched. -/
theorem C10_rejection_leaves_state_unchanged (s : AppState)
    (h : submitBlocked s = true) :
    submitStart s = s ∧ (submitStart s).input = s.input ∧
    (submitStart s).isLoading = s.isLoading ∧
    (submitStart s).messages = s.messages := by
  have hs := submitStart_of_blocked s h
  exact ⟨hs, by rw [hs], by rw [hs], by rw [hs]⟩

theorem C10_rejection_witness :
    submitBlocked ({ initialState with input := "\t", isListening := true } : AppState) = true ∧
    (submitStart { initialState with input := "\t", isListening := true } =
        ({ initialState with input := "\t", isListening := true } : AppState) ∧
      (submitStart { initialState with input := "\t", isListening := true }).input =
        ({ initialState with input := "\t", isListening := true } : AppState).input ∧
      (submitStart { initialState with input := "\t", isListening := true }).isLoading =
        ({ initialState with input := "\t", isListening := true } : AppState).isLoading ∧
      (submitStart { initialState with input := "\t", isListening := true }).messages =
        ({ initialState with input := "\t", isListening := true } : AppState).messages) :=
  ⟨by decide, C10_rejection_leaves_state_unchanged _ (by decide)⟩

end FaqAssistant
